import Mathlib

/-!
# Verification of the voice chat client turn coordinator

A shallow embedding of `src/App.tsx`: the conversation turn-taking state
machine of a browser voice chat client.  The component state
(`isProcessing`, `messages`, `conversationRef`, the speech recognition
hook state) is modelled as an explicit record, and the event handlers
(the mic toggle `recognizeSpeech`, the `finalTranscript` effect with its
fetch then/catch/finally chain, and the `speak` helper) as functions on
that record.  External effects (speech synthesis, speech capture, the
HTTP request) are reflected as explicit fields and action lists so the
theorems can speak about them.
-/

namespace ChatGPTVoice

/-- Role of a transcript entry, the `type` field of the `Message`
interface in App.tsx: `prompt` for user utterances, `response` for
answers. -/
inductive MsgType
  | prompt
  | response
deriving DecidableEq, BEq, Repr

/-- A transcript entry: `interface Message \x7b type; text \x7d` in App.tsx. -/
structure Message where
  type : MsgType
  text : String
deriving DecidableEq, Repr

/-- The two seeded entries of the `useState<Message[]>` initialiser
(App.tsx lines 37-43). -/
def initialMessages : List Message :=
  [ { type := MsgType.prompt, text := "Where is the Empire State Building?" },
    { type := MsgType.response,
      text := "Lorem ipsum dolor sit amet, consectetur adipiscing elit. Sed sit amet elementum quam. Mauris sit amet tincidunt lacus. Quisque nec commodo ante. Duis ullamcorper suscipit lacus, a feugiat mauris. Integer rhoncus erat consequat nisi cursus porttitor." } ]

/-- `conversationRef.current` (App.tsx line 44): the conversation
identity threaded through successive requests.  Both fields start as the
empty string. -/
structure ConversationRef where
  id : String
  currentMessageId : String
deriving DecidableEq, Repr

/-- `interface CreateChatGPTMessageResponse` (App.tsx lines 17-21): the
decoded JSON body of a server response. -/
structure CreateChatGPTMessageResponse where
  answer : String
  conversationId : String
  messageId : String
deriving DecidableEq, Repr

/-- The JSON body of the outgoing POST request (App.tsx lines 88-93).
`conversationId` and `parentMessageId` are optional: the code sends
`conversationRef.current.id || undefined`, so an empty string is sent as
absent. -/
structure RequestBody where
  text : String
  conversationId : Option String
  parentMessageId : Option String
deriving DecidableEq, Repr

/-- Builds the outgoing request body from the finalized transcript and
the current conversation ref, mirroring `JSON.stringify(\x7b text,
conversationId: conversationRef.current.id || undefined, parentMessageId:
conversationRef.current.currentMessageId || undefined \x7d)`:  in
JavaScript the empty string is falsy, so an empty id becomes `undefined`
(absent). -/
def mkRequestBody (text : String) (conv : ConversationRef) : RequestBody :=
  { text := text
    conversationId := if conv.id = "" then none else some conv.id
    parentMessageId :=
      if conv.currentMessageId = "" then none else some conv.currentMessageId }

/-- Result of `res.json()`: either the promise rejects (the body is not
valid JSON) or it resolves to a decoded response object. -/
inductive JsonResult
  | parseError
  | parsed (res : CreateChatGPTMessageResponse)
deriving DecidableEq, Repr

/-- Outcome of the `fetch` call: the promise rejects on a network error,
and otherwise resolves with an HTTP response carrying a status code and
a body.  Note that `fetch` resolves on every HTTP response, 2xx or not. -/
inductive FetchOutcome
  | networkError
  | httpResponse (status : Nat) (body : JsonResult)
deriving DecidableEq, Repr

/-- The fixed failure message substituted by the `.catch` handler
(App.tsx line 107). -/
def failureMessage : String := "Failed to get the response, please try again"

/-- The component state of `App`, together with two reflected external
facts: `pending` is the in-flight request body (`some` exactly while a
fetch issued by the `finalTranscript` effect has not settled) and
`speaking` is the utterance currently queued on `window.speechSynthesis`
(`none` after a `cancel()`). -/
structure AppState where
  isListening : Bool
  isProcessing : Bool
  messages : List Message
  conversation : ConversationRef
  pending : Option RequestBody
  speaking : Option String
deriving DecidableEq, Repr

/-- The initial component state: not listening, not processing, the two
seeded demo messages, empty conversation identity, nothing in flight,
nothing being spoken. -/
def initState : AppState :=
  { isListening := false
    isProcessing := false
    messages := initialMessages
    conversation := { id := "", currentMessageId := "" }
    pending := none
    speaking := none }

/-- External capability calls made by the handlers, in program order. -/
inductive ExtAction
  | cancelSpeech
  | startListening
  | abortListening
  | speakText (text : String)
deriving DecidableEq, Repr

/-- The `recognizeSpeech` click handler (App.tsx lines 47-54): when
listening, abort capture; otherwise cancel any playing speech first and
then start listening.  Returns the new state and the external calls in
the order the code makes them. -/
def recognizeSpeech (s : AppState) : AppState × List ExtAction :=
  if s.isListening then
    ({ s with isListening := false }, [ExtAction.abortListening])
  else
    ({ s with speaking := none, isListening := true },
     [ExtAction.cancelSpeech, ExtAction.startListening])

/-- The `speak` helper (App.tsx lines 56-60): cancels the current
utterance and queues `text`. -/
def speak (s : AppState) (text : String) : AppState :=
  { s with speaking := some text }

/-- The `.then` success handler (App.tsx lines 96-104): store the
returned conversation identity, append a response entry with the answer
text, and speak it. -/
def handleSuccess (s : AppState) (res : CreateChatGPTMessageResponse) : AppState :=
  speak
    { s with
      conversation := { id := res.conversationId, currentMessageId := res.messageId }
      messages := s.messages ++ [{ type := MsgType.response, text := res.answer }] }
    res.answer

/-- The `.catch` handler (App.tsx lines 105-113): append a response
entry with the fixed failure message and speak it.  The conversation ref
is not touched. -/
def handleFailure (s : AppState) : AppState :=
  speak
    { s with messages := s.messages ++ [{ type := MsgType.response, text := failureMessage }] }
    failureMessage

/-- The `.finally` handler (App.tsx lines 114-116): clear the processing
flag; the in-flight request has settled. -/
def handleFinally (s : AppState) : AppState :=
  { s with isProcessing := false, pending := none }

/-- The settlement of the fetch promise chain
`fetch(...).then(res => res.json()).then(success).catch(fail).finally(...)`:
a network error or a JSON parse error lands in `.catch`; any decoded body
lands in the success handler.  The status code is never consulted. -/
def settleFetch (s : AppState) (o : FetchOutcome) : AppState :=
  handleFinally
    (match o with
     | FetchOutcome.networkError => handleFailure s
     | FetchOutcome.httpResponse _ body =>
         match body with
         | JsonResult.parseError => handleFailure s
         | JsonResult.parsed res => handleSuccess s res)

/-- The `finalTranscript` effect (App.tsx lines 74-118): an empty
finalized transcript is ignored by the `if (finalTranscript)` guard;
otherwise a prompt entry is appended, `isProcessing` is set, and the
request is issued with the current conversation ids. -/
def onFinalTranscript (s : AppState) (t : String) : AppState :=
  if t = "" then s
  else
    { s with
      messages := s.messages ++ [{ type := MsgType.prompt, text := t }]
      isProcessing := true
      pending := some (mkRequestBody t s.conversation) }

/-- Events driving the component: a click on the mic button, the capture
engine delivering a finalized transcript (which also ends the capture),
and the in-flight request settling. -/
inductive Event
  | toggleMic
  | finalized (t : String)
  | settled (o : FetchOutcome)
deriving DecidableEq, Repr

/-- One step of the machine.  The mic button carries
`disabled=\x7bisProcessing\x7d`, so a click is a no-op while processing;
a finalized transcript only arrives from an active capture session and
ends it; a settlement only has an effect when a request is in flight. -/
def step (s : AppState) (e : Event) : AppState :=
  match e with
  | Event.toggleMic => if s.isProcessing then s else (recognizeSpeech s).1
  | Event.finalized t =>
      if s.isListening then onFinalTranscript { s with isListening := false } t else s
  | Event.settled o =>
      match s.pending with
      | none => s
      | some _ => settleFetch s o

/-- Runs the machine over a list of events. -/
def run (s : AppState) (es : List Event) : AppState :=
  es.foldl step s

/-- The mic control is rendered with `disabled=\x7bisProcessing\x7d`
(App.tsx line 199). -/
def micButtonDisabled (s : AppState) : Bool :=
  s.isProcessing

/-- What `App` renders at top level: the unsupported-platform notice
replaces the whole main view (App.tsx lines 120-126); otherwise the main
view with the mic control in the given disabled state. -/
inductive AppView
  | unsupportedNotice
  | mainView (micDisabled : Bool)
deriving DecidableEq, Repr

/-- The top-level render decision of `App`. -/
def renderApp (browserSupportsSpeechRecognition : Bool) (s : AppState) : AppView :=
  if browserSupportsSpeechRecognition then AppView.mainView (micButtonDisabled s)
  else AppView.unsupportedNotice

/-- The `getIsActive` closure rendered for each entry (App.tsx lines
146-159): nothing is active while listening; a prompt is active in the
last or second-to-last position; a response is active in the last
position.  `index` and `total` come from `messages.map`, so `index <
total` at every rendered entry. -/
def getIsActive (isListening : Bool) (type : MsgType) (index : Nat) (total : Nat) : Bool :=
  if isListening then false
  else
    match type with
    | MsgType.prompt => index == total - 1 || index == total - 2
    | MsgType.response => index == total - 1

/-- A `<Message>` element as rendered in the main view: the entry data
plus its computed `isActive` flag. -/
structure RenderedMessage where
  type : MsgType
  text : String
  isActive : Bool
deriving DecidableEq, Repr

/-- Renders the stored entries from position `i` on, threading the
running index into `getIsActive`. -/
def renderFrom (isListening : Bool) (total : Nat) : Nat → List Message → List RenderedMessage
  | _, [] => []
  | i, m :: ms =>
      { type := m.type, text := m.text, isActive := getIsActive isListening m.type i total }
        :: renderFrom isListening total (i + 1) ms

/-- The message list of the main view (App.tsx lines 145-169): every
stored entry rendered with its `getIsActive` flag, followed by the live
transcript line (rendered active) exactly while listening. -/
def renderMessages (s : AppState) (liveTranscript : String) : List RenderedMessage :=
  renderFrom s.isListening s.messages.length 0 s.messages ++
    (if s.isListening then
       [{ type := MsgType.prompt, text := liveTranscript, isActive := true }]
     else [])

/-- Index of the most recent response entry, if any. -/
def lastResponseIdx (msgs : List Message) : Option Nat :=
  match msgs.reverse.findIdx? (fun m => m.type == MsgType.response) with
  | none => none
  | some j => some (msgs.length - 1 - j)

/-- Indices of the prompt entries strictly before position `r`, in
increasing order. -/
def promptIdxsBefore (msgs : List Message) (r : Nat) : List Nat :=
  (List.range r).filter
    (fun j => (msgs.getD j { type := MsgType.response, text := "" }).type == MsgType.prompt)

/-- Modelled from the spec: the highlighting rule as the spec words it —
while not listening, the most recent response entry is active and the two
most recent prompt entries before it are active; while listening, nothing
from the store is active.  Defined only to compare with the implemented
`getIsActive` rule. -/
def specActiveRule (isListening : Bool) (msgs : List Message) (i : Nat) : Bool :=
  if isListening then false
  else
    match lastResponseIdx msgs with
    | none => false
    | some r => i == r || ((promptIdxsBefore msgs r).reverse.take 2).contains i

/-- Number of prompt entries in a transcript. -/
def promptCount : List Message → Nat
  | [] => 0
  | m :: ms =>
      (match m.type with
       | MsgType.prompt => 1
       | MsgType.response => 0) + promptCount ms

/-- Number of finalized-transcript events of a trace that are delivered
while the machine is in the listening state. -/
def listeningFinalCount : AppState → List Event → Nat
  | _, [] => 0
  | s, e :: es =>
      (match e with
       | Event.finalized _ => if s.isListening then 1 else 0
       | _ => 0) + listeningFinalCount (step s e) es

/-- Number of non-empty finalized-transcript events of a trace delivered
while listening: exactly the ones that pass the `if (finalTranscript)`
guard of the effect. -/
def promptingFinalCount : AppState → List Event → Nat
  | _, [] => 0
  | s, e :: es =>
      (match e with
       | Event.finalized t => if s.isListening then (if t = "" then 0 else 1) else 0
       | _ => 0) + promptingFinalCount (step s e) es

/-- Whether an event is the successful settlement of a request: the
fetch resolved and the body decoded. -/
def isSuccessSettle : Event → Bool
  | Event.settled (FetchOutcome.httpResponse _ (JsonResult.parsed _)) => true
  | _ => false

/-- Whether a fetch outcome lands in the `.catch` handler: a network
error or a body that fails to decode. -/
def isFailureOutcome : FetchOutcome → Bool
  | FetchOutcome.networkError => true
  | FetchOutcome.httpResponse _ JsonResult.parseError => true
  | FetchOutcome.httpResponse _ (JsonResult.parsed _) => false

/-- The machine invariant: the processing flag holds exactly while a
request is in flight, and capture is never active while a request is in
flight (the finalized transcript that issues the request also ends the
capture session). -/
def Inv (s : AppState) : Prop :=
  s.isProcessing = s.pending.isSome ∧ (s.pending.isSome = true → s.isListening = false)

lemma inv_initState : Inv initState := by
  constructor <;> simp [initState]

lemma settleFetch_isProcessing (s : AppState) (o : FetchOutcome) :
    (settleFetch s o).isProcessing = false := by
  cases o with
  | networkError => rfl
  | httpResponse st body => cases body <;> rfl

lemma settleFetch_pending (s : AppState) (o : FetchOutcome) :
    (settleFetch s o).pending = none := by
  cases o with
  | networkError => rfl
  | httpResponse st body => cases body <;> rfl

lemma settleFetch_isListening (s : AppState) (o : FetchOutcome) :
    (settleFetch s o).isListening = s.isListening := by
  cases o with
  | networkError => rfl
  | httpResponse st body => cases body <;> rfl

lemma inv_step (s : AppState) (e : Event) (h : Inv s) : Inv (step s e) := by
  obtain ⟨h1, h2⟩ := h
  cases e with
  | toggleMic =>
      by_cases hp : s.isProcessing
      · simpa [step, hp] using ⟨h1, h2⟩
      · have hpend : s.pending = none := by
          cases hpd : s.pending with
          | none => rfl
          | some b => rw [hpd] at h1; simp [hp] at h1
        unfold step recognizeSpeech
        by_cases hl : s.isListening <;>
          simp [hp, hl, Inv, h1, hpend]
  | finalized t =>
      by_cases hl : s.isListening
      · have hpend : s.pending = none := by
          cases hpd : s.pending with
          | none => rfl
          | some b =>
              have := h2 (by simp [hpd])
              exact absurd this (by simp [hl])
        by_cases ht : t = ""
        · simp [step, hl, onFinalTranscript, ht, Inv, h1]
        · simp [step, hl, onFinalTranscript, ht, Inv]
      · simpa [step, hl] using ⟨h1, h2⟩
  | settled o =>
      cases hpd : s.pending with
      | none => simpa [step, hpd] using ⟨h1, h2⟩
      | some b =>
          have hls : s.isListening = false := h2 (by simp [hpd])
          constructor
          · simp [step, hpd, settleFetch_isProcessing, settleFetch_pending]
          · intro hsome
            simp [step, hpd, settleFetch_isListening, hls]

lemma inv_run (es : List Event) (s : AppState) (h : Inv s) : Inv (run s es) := by
  induction es generalizing s with
  | nil => exact h
  | cons e es ih => exact ih (step s e) (inv_step s e h)

lemma inv_run_initState (es : List Event) : Inv (run initState es) :=
  inv_run es initState inv_initState

lemma promptCount_append_response (msgs : List Message) (t : String) :
    promptCount (msgs ++ [{ type := MsgType.response, text := t }]) = promptCount msgs := by
  induction msgs with
  | nil => rfl
  | cons m ms ih => simp [promptCount, ih]

lemma promptCount_append_prompt (msgs : List Message) (t : String) :
    promptCount (msgs ++ [{ type := MsgType.prompt, text := t }]) = promptCount msgs + 1 := by
  induction msgs with
  | nil => rfl
  | cons m ms ih =>
      have h1 : promptCount ((m :: ms) ++ [{ type := MsgType.prompt, text := t }]) =
          (match m.type with
           | MsgType.prompt => 1
           | MsgType.response => 0) + promptCount (ms ++ [{ type := MsgType.prompt, text := t }]) := rfl
      rw [h1, ih, promptCount]
      omega

lemma settleFetch_messages (s : AppState) (o : FetchOutcome) :
    (settleFetch s o).messages = s.messages ++
      [{ type := MsgType.response,
         text := match o with
                 | FetchOutcome.httpResponse _ (JsonResult.parsed res) => res.answer
                 | _ => failureMessage }] := by
  cases o with
  | networkError => rfl
  | httpResponse st body => cases body <;> rfl

lemma step_toggleMic_messages (s : AppState) :
    (step s Event.toggleMic).messages = s.messages := by
  unfold step recognizeSpeech
  by_cases hp : s.isProcessing <;> by_cases hl : s.isListening <;> simp [hp, hl]

lemma promptCount_run (es : List Event) (s : AppState) :
    promptCount (run s es).messages = promptCount s.messages + promptingFinalCount s es := by
  induction es generalizing s with
  | nil => simp [run, promptingFinalCount]
  | cons e es ih =>
      have hrun : run s (e :: es) = run (step s e) es := rfl
      rw [hrun, ih (step s e)]
      cases e with
      | toggleMic => simp [promptingFinalCount, step_toggleMic_messages]
      | finalized t =>
          by_cases hl : s.isListening
          · by_cases ht : t = ""
            · simp [promptingFinalCount, step, hl, onFinalTranscript, ht]
            · simp [promptingFinalCount, step, hl, onFinalTranscript, ht, promptCount_append_prompt]
              exact Nat.add_assoc _ _ _
          · simp [promptingFinalCount, step, hl]
      | settled o =>
          cases hpd : s.pending with
          | none => simp [promptingFinalCount, step, hpd]
          | some b =>
              simp [promptingFinalCount, step, hpd, settleFetch_messages,
                promptCount_append_response]

lemma settleFetch_conversation_failure (s : AppState) (o : FetchOutcome)
    (h : isFailureOutcome o = true) : (settleFetch s o).conversation = s.conversation := by
  cases o with
  | networkError => rfl
  | httpResponse st body =>
      cases body with
      | parseError => rfl
      | parsed r => simp [isFailureOutcome] at h

lemma step_conversation_of_not_success (s : AppState) (e : Event)
    (he : isSuccessSettle e = false) : (step s e).conversation = s.conversation := by
  cases e with
  | toggleMic =>
      unfold step recognizeSpeech
      by_cases hp : s.isProcessing <;> by_cases hl : s.isListening <;> simp [hp, hl]
  | finalized t =>
      unfold step onFinalTranscript
      by_cases hl : s.isListening <;> by_cases ht : t = "" <;> simp [hl, ht]
  | settled o =>
      cases hpd : s.pending with
      | none => simp [step, hpd]
      | some b =>
          cases o with
          | networkError => simp [step, hpd, settleFetch, handleFailure, handleFinally, speak]
          | httpResponse st body =>
              cases body with
              | parseError => simp [step, hpd, settleFetch, handleFailure, handleFinally, speak]
              | parsed r => simp [isSuccessSettle] at he

/-! ## Concrete states used by the witnesses and counterexamples -/

/-- A trace that toggles the mic on and finalizes one utterance: it
leaves a request in flight. -/
def esAwait : List Event := [Event.toggleMic, Event.finalized "hello"]

/-- The state with one request in flight reached by `esAwait`. -/
def sAwait : AppState := run initState esAwait

/-- The state reached by a single mic toggle: listening. -/
def sListening : AppState := run initState [Event.toggleMic]

/-- A concrete server response. -/
def rNYC : CreateChatGPTMessageResponse :=
  { answer := "It is in NYC", conversationId := "c1", messageId := "m1" }

/-! ## Claims -/

/-- C1: the mic/request control is disabled for the entire interval from
when an answer request is issued until that request settles, and it is
not disabled at any other time; in the platform-unsupported state the
control is not rendered at all.  In every reachable state the rendered
`disabled` flag of the mic button equals whether a request is in
flight. -/
theorem C1_mic_disabled_iff_request_in_flight :
    (∀ s : AppState, renderApp false s = AppView.unsupportedNotice) ∧
    (∀ es : List Event,
       micButtonDisabled (run initState es) = (run initState es).pending.isSome) := by
  constructor
  · intro s; rfl
  · intro es; exact (inv_run_initState es).1

/-- C2: when the in-flight answer request fails (network error or decode
error), a response entry with the fixed failure message is appended,
speech output is invoked with that message, the conversation state is
bit-identical to its value before the request, and control returns to
Idle (not processing, not listening, nothing in flight). -/
theorem C2_failure_appends_fixed_message : ∀ (es : List Event) (o : FetchOutcome),
    isFailureOutcome o = true →
    (run initState es).pending.isSome = true →
    (step (run initState es) (Event.settled o)).messages =
        (run initState es).messages ++ [{ type := MsgType.response, text := failureMessage }] ∧
    (step (run initState es) (Event.settled o)).speaking = some failureMessage ∧
    (step (run initState es) (Event.settled o)).conversation = (run initState es).conversation ∧
    (step (run initState es) (Event.settled o)).isProcessing = false ∧
    (step (run initState es) (Event.settled o)).isListening = false ∧
    (step (run initState es) (Event.settled o)).pending = none := by
  intro es o hfail hpend
  have hls : (run initState es).isListening = false := (inv_run_initState es).2 hpend
  cases hpd : (run initState es).pending with
  | none => rw [hpd] at hpend; simp at hpend
  | some b =>
      cases o with
      | networkError =>
          simp [step, hpd, settleFetch, handleFailure, handleFinally, speak, hls]
      | httpResponse st body =>
          cases body with
          | parseError =>
              simp [step, hpd, settleFetch, handleFailure, handleFinally, speak, hls]
          | parsed r => simp [isFailureOutcome] at hfail

/-- Witness for C2 at the concrete in-flight state `sAwait` and a
network error. -/
theorem C2_failure_appends_fixed_message_witness :
    (step sAwait (Event.settled FetchOutcome.networkError)).messages =
        sAwait.messages ++ [{ type := MsgType.response, text := failureMessage }] ∧
    (step sAwait (Event.settled FetchOutcome.networkError)).speaking = some failureMessage ∧
    (step sAwait (Event.settled FetchOutcome.networkError)).conversation = sAwait.conversation ∧
    (step sAwait (Event.settled FetchOutcome.networkError)).isProcessing = false ∧
    (step sAwait (Event.settled FetchOutcome.networkError)).isListening = false ∧
    (step sAwait (Event.settled FetchOutcome.networkError)).pending = none :=
  C2_failure_appends_fixed_message esAwait FetchOutcome.networkError rfl rfl

/-- C3: when the in-flight answer request succeeds with a decoded
response, the conversation session is updated from the response, a
response entry with exactly the answer text is appended, speech output
is invoked with the answer text, and the system returns to Idle. -/
theorem C3_success_updates_session : ∀ (es : List Event) (st : Nat)
    (r : CreateChatGPTMessageResponse),
    (run initState es).pending.isSome = true →
    (step (run initState es)
        (Event.settled (FetchOutcome.httpResponse st (JsonResult.parsed r)))).conversation =
        { id := r.conversationId, currentMessageId := r.messageId } ∧
    (step (run initState es)
        (Event.settled (FetchOutcome.httpResponse st (JsonResult.parsed r)))).messages =
        (run initState es).messages ++ [{ type := MsgType.response, text := r.answer }] ∧
    (step (run initState es)
        (Event.settled (FetchOutcome.httpResponse st (JsonResult.parsed r)))).speaking =
        some r.answer ∧
    (step (run initState es)
        (Event.settled (FetchOutcome.httpResponse st (JsonResult.parsed r)))).isProcessing = false ∧
    (step (run initState es)
        (Event.settled (FetchOutcome.httpResponse st (JsonResult.parsed r)))).isListening = false ∧
    (step (run initState es)
        (Event.settled (FetchOutcome.httpResponse st (JsonResult.parsed r)))).pending = none := by
  intro es st r hpend
  have hls : (run initState es).isListening = false := (inv_run_initState es).2 hpend
  cases hpd : (run initState es).pending with
  | none => rw [hpd] at hpend; simp at hpend
  | some b =>
      simp [step, hpd, settleFetch, handleSuccess, handleFinally, speak, hls]

/-- Witness for C3 at the concrete in-flight state `sAwait` and the
scenario response of the spec. -/
theorem C3_success_updates_session_witness :
    (step sAwait
        (Event.settled (FetchOutcome.httpResponse 200 (JsonResult.parsed rNYC)))).conversation =
        { id := "c1", currentMessageId := "m1" } ∧
    (step sAwait
        (Event.settled (FetchOutcome.httpResponse 200 (JsonResult.parsed rNYC)))).messages =
        sAwait.messages ++ [{ type := MsgType.response, text := "It is in NYC" }] ∧
    (step sAwait
        (Event.settled (FetchOutcome.httpResponse 200 (JsonResult.parsed rNYC)))).speaking =
        some "It is in NYC" ∧
    (step sAwait
        (Event.settled (FetchOutcome.httpResponse 200 (JsonResult.parsed rNYC)))).isProcessing = false ∧
    (step sAwait
        (Event.settled (FetchOutcome.httpResponse 200 (JsonResult.parsed rNYC)))).isListening = false ∧
    (step sAwait
        (Event.settled (FetchOutcome.httpResponse 200 (JsonResult.parsed rNYC)))).pending = none :=
  C3_success_updates_session esAwait 200 rNYC rfl

/-- C4: both conversation fields are empty initially and the first
outgoing request carries `conversationId` and `parentMessageId` as
absent; a successful request overwrites the conversation state with the
ids returned in that response, no other step changes it, and a request
issued from any state carries the current id — sent as absent exactly
when it is the empty string, which is how the code (and the spec, which
identifies an empty field with an absent one) encodes an empty id. -/
theorem C4_conversation_threading :
    initState.conversation = { id := "", currentMessageId := "" } ∧
    (∀ t : String, mkRequestBody t initState.conversation =
        { text := t, conversationId := none, parentMessageId := none }) ∧
    (∀ (s : AppState) (st : Nat) (r : CreateChatGPTMessageResponse) (b : RequestBody),
        s.pending = some b →
        (step s (Event.settled (FetchOutcome.httpResponse st (JsonResult.parsed r)))).conversation =
          { id := r.conversationId, currentMessageId := r.messageId }) ∧
    (∀ (s : AppState) (e : Event), isSuccessSettle e = false →
        (step s e).conversation = s.conversation) ∧
    (∀ (s : AppState) (t : String), s.isListening = true → ¬ t = "" →
        (step s (Event.finalized t)).pending = some (mkRequestBody t s.conversation)) ∧
    (∀ (t : String) (c : ConversationRef),
        (mkRequestBody t c).conversationId = if c.id = "" then none else some c.id) := by
  refine ⟨rfl, fun t => rfl, ?_, step_conversation_of_not_success, ?_, fun t c => rfl⟩
  · intro s st r b hb
    simp [step, hb, settleFetch, handleSuccess, handleFinally, speak]
  · intro s t hl ht
    simp [step, hl, onFinalTranscript, ht]

/-- Witness for C4 discharging the hypotheses of its conditional parts
at concrete inputs: a success settling at `sAwait`, a failure settling at
`sAwait`, and a request issued from `sListening`. -/
theorem C4_conversation_threading_witness :
    (step sAwait (Event.settled (FetchOutcome.httpResponse 200 (JsonResult.parsed rNYC)))).conversation =
        { id := "c1", currentMessageId := "m1" } ∧
    (step sAwait (Event.settled FetchOutcome.networkError)).conversation = sAwait.conversation ∧
    (step sListening (Event.finalized "hi")).pending =
        some (mkRequestBody "hi" sListening.conversation) :=
  ⟨C4_conversation_threading.2.2.1 sAwait 200 rNYC { text := "hello", conversationId := none, parentMessageId := none } rfl,
   C4_conversation_threading.2.2.2.1 sAwait (Event.settled FetchOutcome.networkError) rfl,
   C4_conversation_threading.2.2.2.2.1 sListening "hi" rfl (by decide)⟩

/-- Trace for the C5 counterexample: two utterances that finalize as the
empty transcript. -/
def trace5 : List Event :=
  [Event.toggleMic, Event.finalized "", Event.toggleMic, Event.finalized ""]

/-- C5 counterexample: the transcript store is seeded with a demo prompt
entry, so after zero finalized-transcript events it already holds one
prompt entry; and an utterance finalized as the empty string is counted
as a finalized-transcript event received while listening but appends no
prompt entry. -/
theorem C5_prompt_count_counterexample :
    promptCount (run initState []).messages ≠ listeningFinalCount initState [] ∧
    promptCount (run initState trace5).messages ≠ listeningFinalCount initState trace5 := by
  constructor <;> decide

/-- C5 amended: for every event trace, the number of prompt entries in
the store equals one (the seeded demo prompt entry) plus the number of
non-empty finalized transcripts received while in the listening state. -/
theorem C5_prompt_count :
    ∀ es : List Event,
      promptCount (run initState es).messages = 1 + promptingFinalCount initState es := by
  intro es
  rw [promptCount_run]
  have h1 : promptCount initState.messages = 1 := rfl
  rw [h1]

/-- A decoded body a non-2xx response could carry. -/
def errBody : CreateChatGPTMessageResponse :=
  { answer := "Internal error page", conversationId := "cid", messageId := "mid" }

/-- C6: the code never consults the HTTP status code — `fetch` resolves
on every HTTP response and only `res.json()` can reject — so a non-2xx
response whose body is valid JSON is handled by the success path: its
body text is appended and spoken as if it were an answer and the
conversation ids are overwritten from it, while only a decode error or a
network error is substituted with the fixed failure message.  This
contradicts the claim (and the spec) that every non-2xx response is
treated as a failure. -/
theorem C6_non2xx_handled_as_success :
    (step sAwait (Event.settled (FetchOutcome.httpResponse 500 (JsonResult.parsed errBody)))).messages =
        sAwait.messages ++ [{ type := MsgType.response, text := "Internal error page" }] ∧
    (step sAwait (Event.settled (FetchOutcome.httpResponse 500 (JsonResult.parsed errBody)))).conversation =
        { id := "cid", currentMessageId := "mid" } ∧
    (step sAwait (Event.settled (FetchOutcome.httpResponse 500 JsonResult.parseError))).messages =
        sAwait.messages ++ [{ type := MsgType.response, text := failureMessage }] :=
  ⟨rfl, rfl, rfl⟩

lemma renderFrom_listening (total : Nat) (i : Nat) (ms : List Message) :
    renderFrom true total i ms =
      ms.map fun m => { type := m.type, text := m.text, isActive := false } := by
  induction ms generalizing i with
  | nil => rfl
  | cons m ms ih => simp [renderFrom, getIsActive, ih]

/-- A transcript with two full turns, used to compare the implemented
highlighting rule with the rule as the spec words it. -/
def msgs4 : List Message :=
  [ { type := MsgType.prompt, text := "p0" }, { type := MsgType.response, text := "r0" },
    { type := MsgType.prompt, text := "p1" }, { type := MsgType.response, text := "r1" } ]

/-- C7 counterexample: in the two-turn transcript `msgs4`, entry 0 is a
prompt and is one of the two most recent prompt entries before the most
recent response, so the claimed rule marks it active — but the
implemented `getIsActive` marks it inactive, because the code activates
prompts by position (last or second-to-last entry), not by counting
prompt entries before the most recent response. -/
theorem C7_active_rule_counterexample :
    (msgs4.getD 0 { type := MsgType.response, text := "" }).type = MsgType.prompt ∧
    specActiveRule false msgs4 0 = true ∧
    getIsActive false MsgType.prompt 0 msgs4.length = false := by
  refine ⟨rfl, ?_, rfl⟩
  decide

/-- C7 amended: while not listening, a rendered entry is active exactly
when it is the last entry of the store, or a prompt entry in the
second-to-last position; while listening, no entry from the store is
active and the live transcript line is rendered (active) after them. -/
theorem C7_active_rule :
    (∀ (b : Bool) (ty : MsgType) (i total : Nat), i < total →
       (getIsActive b ty i total = true ↔
         b = false ∧ (i + 1 = total ∨ (ty = MsgType.prompt ∧ i + 2 = total)))) ∧
    (∀ (s : AppState) (live : String), s.isListening = true →
       renderMessages s live =
         (s.messages.map fun m => { type := m.type, text := m.text, isActive := false }) ++
           [{ type := MsgType.prompt, text := live, isActive := true }]) := by
  constructor
  · intro b ty i total h
    cases b with
    | true => simp [getIsActive]
    | false => cases ty <;> simp [getIsActive] <;> omega
  · intro s live h
    simp [renderMessages, h, renderFrom_listening]

/-- Witness for C7 at a two-entry store and at the listening state
`sListening`. -/
theorem C7_active_rule_witness :
    (getIsActive false MsgType.prompt 1 2 = true ↔
      false = false ∧ (1 + 1 = 2 ∨ (MsgType.prompt = MsgType.prompt ∧ 1 + 2 = 2))) ∧
    renderMessages sListening "hi" =
      (sListening.messages.map fun m => { type := m.type, text := m.text, isActive := false }) ++
        [{ type := MsgType.prompt, text := "hi", isActive := true }] :=
  ⟨C7_active_rule.1 false MsgType.prompt 1 2 (by decide),
   C7_active_rule.2 sListening "hi" rfl⟩

/-- Trace reaching a state whose conversation id is the non-empty
`"c1"`. -/
def trace8a : List Event :=
  [Event.toggleMic, Event.finalized "q1",
   Event.settled (FetchOutcome.httpResponse 200
     (JsonResult.parsed { answer := "a1", conversationId := "c1", messageId := "m1" }))]

/-- Continuation of `trace8a` by a second successful turn whose response
carries an empty conversation id. -/
def trace8 : List Event :=
  trace8a ++
    [Event.toggleMic, Event.finalized "q2",
     Event.settled (FetchOutcome.httpResponse 200
       (JsonResult.parsed { answer := "a2", conversationId := "", messageId := "m2" }))]

/-- C8 counterexample: the success handler overwrites
`conversationRef.current.id` unconditionally with the id returned in the
response, so a successful response carrying an empty `conversationId`
clears an id that had already been set to the non-empty value `"c1"`. -/
theorem C8_cleared_by_empty_success :
    (run initState trace8a).conversation.id = "c1" ∧
    (run initState trace8).conversation.id = "" :=
  ⟨rfl, rfl⟩

/-- C8 amended: once `conversationId` is non-empty it is never cleared by
a mic toggle, a finalized transcript, a failed request, or a successful
request whose response carries a non-empty `conversationId`; only a
successful response with an empty `conversationId` can clear it. -/
theorem C8_conversation_id_preserved : ∀ (s : AppState) (e : Event),
    ¬ s.conversation.id = "" →
    (∀ (st : Nat) (r : CreateChatGPTMessageResponse),
        e = Event.settled (FetchOutcome.httpResponse st (JsonResult.parsed r)) →
        ¬ r.conversationId = "") →
    ¬ (step s e).conversation.id = "" := by
  intro s e hid hr
  cases e with
  | toggleMic =>
      rw [step_conversation_of_not_success s Event.toggleMic rfl]; exact hid
  | finalized t =>
      rw [step_conversation_of_not_success s (Event.finalized t) rfl]; exact hid
  | settled o =>
      cases o with
      | networkError =>
          rw [step_conversation_of_not_success s
            (Event.settled FetchOutcome.networkError) rfl]
          exact hid
      | httpResponse st body =>
          cases body with
          | parseError =>
              rw [step_conversation_of_not_success s
                (Event.settled (FetchOutcome.httpResponse st JsonResult.parseError)) rfl]
              exact hid
          | parsed r =>
              have hr2 := hr st r rfl
              cases hpd : s.pending with
              | none => simpa [step, hpd] using hid
              | some b =>
                  simpa [step, hpd, settleFetch, handleSuccess, handleFinally, speak] using hr2

/-- Witness for C8 amended: the non-empty id `"c1"` survives a failed
request. -/
theorem C8_conversation_id_preserved_witness :
    ¬ (step (run initState trace8a) (Event.settled FetchOutcome.networkError)).conversation.id = "" :=
  C8_conversation_id_preserved (run initState trace8a) (Event.settled FetchOutcome.networkError)
    (by decide) (by intro st r h; simp at h)

/-- C9: toggling the mic while not listening first cancels any playing
speech output and then starts capture, in that order; toggling it while
listening aborts capture, and the transcript store is untouched, so
that toggle-off appends zero entries. -/
theorem C9_toggle_mic :
    (∀ s : AppState, s.isListening = false →
       (recognizeSpeech s).2 = [ExtAction.cancelSpeech, ExtAction.startListening] ∧
       (recognizeSpeech s).1.speaking = none ∧
       (recognizeSpeech s).1.isListening = true) ∧
    (∀ s : AppState, s.isListening = true →
       (recognizeSpeech s).2 = [ExtAction.abortListening] ∧
       (recognizeSpeech s).1.messages = s.messages ∧
       (recognizeSpeech s).1.isListening = false) := by
  constructor <;> intro s h <;> simp [recognizeSpeech, h]

/-- Witness for C9 at the idle initial state and at the listening state
`sListening`. -/
theorem C9_toggle_mic_witness :
    ((recognizeSpeech initState).2 = [ExtAction.cancelSpeech, ExtAction.startListening] ∧
     (recognizeSpeech initState).1.speaking = none ∧
     (recognizeSpeech initState).1.isListening = true) ∧
    ((recognizeSpeech sListening).2 = [ExtAction.abortListening] ∧
     (recognizeSpeech sListening).1.messages = sListening.messages ∧
     (recognizeSpeech sListening).1.isListening = false) :=
  ⟨C9_toggle_mic.1 initState rfl, C9_toggle_mic.2 sListening rfl⟩

/-- C10: a finalized transcript equal to the empty string is rejected by
the `if (finalTranscript)` guard: in every state it appends no entry,
leaves the conversation state and the processing flag unchanged, and
issues no request. -/
theorem C10_empty_final_transcript_ignored : ∀ s : AppState,
    (step s (Event.finalized "")).messages = s.messages ∧
    (step s (Event.finalized "")).conversation = s.conversation ∧
    (step s (Event.finalized "")).isProcessing = s.isProcessing ∧
    (step s (Event.finalized "")).pending = s.pending := by
  intro s
  by_cases hl : s.isListening <;> simp [step, hl, onFinalTranscript]

end ChatGPTVoice
